import Mathlib

/-!
Shallow embedding of the `locci-vps` CLI core (src/cli/src/main.rs):
the API-client envelope decoding, the resource resolver, the command
handlers, the pre-flight gate in `main`, one iteration of the interactive
console loop, and the table-row rendering.  HTTP transport and terminal
rendering are external; they appear as explicit inputs (the received
envelope, the operator's confirmations/selections) and explicit outputs
(the list of network calls issued, flags for the messages printed).
-/

namespace LocciVPS

/-- The VM record (struct `VM` in main.rs).  `created_at` is a display-only
timestamp, kept as a string. -/
structure VM where
  id : String
  name : String
  cpu : Nat
  memory : Nat
  disk_size : Nat
  image : String
  status : String
  ip_address : String
  created_at : String
  socket_path : String
  kernel_path : String
  rootfs_path : String
  tap_device : String
  deriving Repr, DecidableEq

/-- The creation payload (struct `VMRequest` in main.rs). -/
structure VMRequest where
  name : String
  cpu : Nat
  memory : Nat
  disk_size : Nat
  image : String
  deriving Repr, DecidableEq

/-- The uniform response envelope (struct `ApiResponse<T>` in main.rs). -/
structure ApiResponse (T : Type) where
  success : Bool
  message : String
  data : Option T
  deriving Repr

/-- Error outcomes of client operations.  In the Rust source all of these are
`anyhow::Error` values distinguished by their message; the constructors keep
the distinct sources apart: `transport` (request/decode failure wrapped by
`.context`), `api` (envelope with `success=false`, message from the service),
`noData` (`success=true` but `data` absent, from `.context` on the `Option`),
`notFound` (the resolver's bail, carrying the token), `validation`
(client-side range check in `handle_create`). -/
inductive ClientError where
  | transport (msg : String)
  | api (msg : String)
  | noData (msg : String)
  | notFound (token : String)
  | validation (msg : String)
  deriving Repr, DecidableEq

/-- The network calls a handler can issue, recorded as a trace. -/
inductive NetCall where
  | createVM (req : VMRequest)
  | listVMs
  | getVM (id : String)
  | startVM (id : String)
  | stopVM (id : String)
  | deleteVM (id : String)
  | healthCheck
  deriving Repr, DecidableEq

/-- Envelope decoding of `VPSClient::create_vm`: fail with the service message
on `success=false`, otherwise require the payload
(`api_response.data.context` in the source). -/
def create_vm (r : ApiResponse VM) : Except ClientError VM :=
  if !r.success then .error (.api r.message)
  else
    match r.data with
    | some vm => .ok vm
    | none => .error (.noData "No VM data in response")

/-- Envelope decoding of `VPSClient::list_vms`: fail with the service message
on `success=false`, otherwise `data.unwrap_or_default()` — an absent payload
becomes the empty list. -/
def list_vms (r : ApiResponse (List VM)) : Except ClientError (List VM) :=
  if !r.success then .error (.api r.message)
  else .ok (r.data.getD [])

/-- Envelope decoding of `VPSClient::get_vm`: same shape as `create_vm`. -/
def get_vm (r : ApiResponse VM) : Except ClientError VM :=
  if !r.success then .error (.api r.message)
  else
    match r.data with
    | some vm => .ok vm
    | none => .error (.noData "No VM data in response")

/-- HTTP status check `reqwest::StatusCode::is_success`: 2xx. -/
def isSuccessStatus (status : Nat) : Bool :=
  decide (200 ≤ status ∧ status < 300)

/-- `VPSClient::health_check`: the input is the transport outcome — either a
transport failure (wrapped with context "Failed to connect to service") or a
received HTTP status code.  On any received response it returns
`status().is_success()` as a boolean, never an error. -/
def health_check (resp : Except String Nat) : Except ClientError Bool :=
  match resp with
  | .error _ => .error (.transport "Failed to connect to service")
  | .ok status => .ok (isSuccessStatus status)

/-- The per-request timeout each client operation attaches to its request:
only `health_check` sets one (`Duration::from_secs(5)`); every other
operation uses the client default (none set on the request). -/
def opTimeoutSecs : NetCall → Option Nat
  | .healthCheck => some 5
  | _ => none

/-- `VPSClient::find_vm_by_name_or_id`, parametric in the outcomes of the two
calls it may make: `getResult` is what `get_vm(name_or_id)` returns and
`listResult` what `list_vms()` returns.  The second component of the result
counts list calls actually performed.  Mirrors the source: any failure of the
direct-id lookup falls back to a name scan; the first VM (in listed order)
whose name equals the token exactly wins; otherwise bail with the token. -/
def find_vm_by_name_or_id (name_or_id : String)
    (getResult : Except ClientError VM)
    (listResult : Except ClientError (List VM)) :
    Except ClientError VM × Nat :=
  match getResult with
  | .ok vm => (.ok vm, 0)
  | .error _ =>
    match listResult with
    | .error e => (.error e, 1)
    | .ok vms =>
      match vms.find? (fun vm => vm.name == name_or_id) with
      | some vm => (.ok vm, 1)
      | none => (.error (.notFound name_or_id), 1)

/-- Modelled from the spec: the service side of `GET /api/v1/vms/id` (the
service itself is outside this repository).  Per the HTTP contract, a lookup
of an existing VM id answers `success=true` with that VM as payload; an
unknown id answers `success=false`. -/
def service_get_vm (vms : List VM) (id : String) : ApiResponse VM :=
  match vms.find? (fun vm => vm.id == id) with
  | some vm => { success := true, message := "", data := some vm }
  | none => { success := false, message := "VM not found", data := none }

/-- Modelled from the spec: the service side of `GET /api/v1/vms` — answers
`success=true` with the full VM sequence as payload. -/
def service_list_vms (vms : List VM) : ApiResponse (List VM) :=
  { success := true, message := "", data := some vms }

/-- The resolver composed with the client decoding and the service model:
what `find_vm_by_name_or_id` computes against a service holding `vms`. -/
def client_find (vms : List VM) (token : String) :
    Except ClientError VM × Nat :=
  find_vm_by_name_or_id token
    (get_vm (service_get_vm vms token))
    (list_vms (service_list_vms vms))

/-- Request assembly and validation of `handle_create` in the non-interactive
branch: defaults for name (timestamp-based, passed in as `defaultName`) and
image, then the three range checks in source order, each bailing before any
network call. -/
def handle_create_request (name : Option String) (cpu memory disk : Nat)
    (image : Option String) (defaultName : String) :
    Except ClientError VMRequest :=
  let name := name.getD defaultName
  let image := image.getD "ubuntu-24.04"
  if ¬(1 ≤ cpu ∧ cpu ≤ 8) then
    .error (.validation "CPU cores must be between 1 and 8")
  else if ¬(128 ≤ memory ∧ memory ≤ 8192) then
    .error (.validation "Memory must be between 128MB and 8192MB")
  else if ¬(1 ≤ disk ∧ disk ≤ 100) then
    .error (.validation "Disk size must be between 1GB and 100GB")
  else
    .ok { name := name, cpu := cpu, memory := memory, disk_size := disk,
          image := image }

/-- Non-interactive `handle_create`: validate, then (only on success) issue
the single `createVM` network call with the assembled request and decode the
service envelope (`svc` is what the service answers).  The second component
is the trace of network calls issued. -/
def handle_create (name : Option String) (cpu memory disk : Nat)
    (image : Option String) (defaultName : String)
    (svc : VMRequest → ApiResponse VM) :
    Except ClientError VM × List NetCall :=
  match handle_create_request name cpu memory disk image defaultName with
  | .error e => (.error e, [])
  | .ok req =>
    match create_vm (svc req) with
    | .error e => (.error e, [.createVM req])
    | .ok vm => (.ok vm, [.createVM req])

/-- Outcome of a state-mutating handler: the result, the trace of
state-mutating network calls issued, and whether the "already
running/stopped" notice was printed. -/
structure StartStopOut where
  result : Except ClientError Unit
  calls : List NetCall
  notice : Bool
  deriving Repr

/-- `handle_start`: `resolve` is the outcome of `find_vm_by_name_or_id` and
`startF` what `start_vm` would return for a given id.  If the resolved VM is
already `running`, print the notice and return success without calling
`start_vm`; otherwise call it (the `wait` flag only adds a fixed sleep). -/
def handle_start (resolve : Except ClientError VM)
    (startF : String → Except ClientError Unit) (wait : Bool) :
    StartStopOut :=
  match resolve with
  | .error e => { result := .error e, calls := [], notice := false }
  | .ok vm =>
    if vm.status = "running" then
      { result := .ok (), calls := [], notice := true }
    else
      match startF vm.id with
      | .error e =>
        { result := .error e, calls := [.startVM vm.id], notice := false }
      | .ok _ =>
        { result := .ok (), calls := [.startVM vm.id], notice := false }

/-- `handle_stop`: if the resolved VM is already `stopped`, print the notice
and return success without calling `stop_vm`.  Otherwise, without `force`,
ask for confirmation (`confirm` is the operator's answer) and cancel cleanly
on decline; else call `stop_vm`. -/
def handle_stop (resolve : Except ClientError VM)
    (stopF : String → Except ClientError Unit) (force confirm : Bool) :
    StartStopOut :=
  match resolve with
  | .error e => { result := .error e, calls := [], notice := false }
  | .ok vm =>
    if vm.status = "stopped" then
      { result := .ok (), calls := [], notice := true }
    else if !force && !confirm then
      { result := .ok (), calls := [], notice := false }
    else
      match stopF vm.id with
      | .error e =>
        { result := .error e, calls := [.stopVM vm.id], notice := false }
      | .ok _ =>
        { result := .ok (), calls := [.stopVM vm.id], notice := false }

/-- Outcome of `handle_delete`: result, trace of state-mutating calls, and
whether the irreversibility warning was printed. -/
structure DeleteOut where
  result : Except ClientError Unit
  calls : List NetCall
  warned : Bool
  deriving Repr

/-- `handle_delete`: resolve the VM; when `force` is unset, print the
irreversibility warning and ask for confirmation, cancelling cleanly on
decline; invoke `delete_vm` otherwise.  When `force` is set the warning and
prompt are skipped entirely (they live inside the `if !force` block in the
source). -/
def handle_delete (resolve : Except ClientError VM)
    (deleteF : String → Except ClientError Unit) (force confirm : Bool) :
    DeleteOut :=
  match resolve with
  | .error e => { result := .error e, calls := [], warned := false }
  | .ok vm =>
    if !force then
      if !confirm then
        { result := .ok (), calls := [], warned := true }
      else
        match deleteF vm.id with
        | .error e =>
          { result := .error e, calls := [.deleteVM vm.id], warned := true }
        | .ok _ =>
          { result := .ok (), calls := [.deleteVM vm.id], warned := true }
    else
      match deleteF vm.id with
      | .error e =>
        { result := .error e, calls := [.deleteVM vm.id], warned := false }
      | .ok _ =>
        { result := .ok (), calls := [.deleteVM vm.id], warned := false }

/-- The CLI subcommands (enum `Commands` in main.rs), with their payloads. -/
inductive Command where
  | create (name : Option String) (cpu memory disk : Nat)
      (image : Option String) (interactive : Bool)
  | list (detailed : Bool) (status : Option String)
  | get (id : String) (json : Bool)
  | start (id : String) (wait : Bool)
  | stop (id : String) (force : Bool)
  | delete (id : String) (force : Bool)
  | health
  | console
  deriving Repr, DecidableEq

/-- What `main` decides before dispatching. -/
inductive MainOutcome where
  | exited (code : Nat)
  | ranHandler (c : Command)
  deriving Repr, DecidableEq

/-- The pre-flight gate in `main`: for every command except `Health`, run the
health probe first (`probe` is its outcome) and, with the probe result
collapsed by `unwrap_or(false)`, exit with status 1 before entering any
handler unless it is `true`.  The first component records whether the probe
ran. -/
def main_gate (c : Command) (probe : Except ClientError Bool) :
    Bool × MainOutcome :=
  match c with
  | .health => (false, .ranHandler c)
  | _ =>
    if (match probe with | .ok b => b | .error _ => false) then
      (true, .ranHandler c)
    else
      (true, .exited 1)

/-- Environment of one iteration of the console loop in `handle_console`:
the outcome of the `list_vms` fetch that populates the selection menu (only
consulted for VM-addressed actions), the outcome of the VM `Select` prompt,
and the outcome of the dispatched handler. -/
structure ConsoleEnv where
  listResult : Except ClientError (List VM)
  vmSelInput : Except ClientError Nat
  handlerResult : Except ClientError Unit

/-- Result of one iteration of the console loop: continue to the next menu
(recording whether a handler was entered, whether its error was printed, and
whether the empty-list notice was printed), break out on Exit, or terminate
with the propagated input error. -/
inductive StepResult where
  | cont (enteredHandler errorPrinted emptyNotice : Bool)
  | exited
  | inputFailure
  deriving Repr, DecidableEq

/-- Menu indices 2–5 (start, stop, delete, details) address a specific VM and
populate a selection menu from a live list fetch. -/
def isVMAddressed (sel : Fin 8) : Bool :=
  sel.val == 2 || sel.val == 3 || sel.val == 4 || sel.val == 5

/-- The VM list a console iteration works with:
`client.list_vms().await.unwrap_or_default()`. -/
def consoleVMs (env : ConsoleEnv) : List VM :=
  match env.listResult with
  | .ok vms => vms
  | .error _ => []

/-- One iteration of the `handle_console` loop.  The menu `Select` has eight
items, so its outcome is an error (propagated by `?`, terminating the loop)
or an index below 8.  Index 7 is Exit (`break`).  VM-addressed actions fetch
the list with `unwrap_or_default`; an empty list prints the notice and
`continue`s without entering the handler; otherwise the VM `Select` runs
(its error also propagates) and the handler is dispatched with its error
caught and printed (`if let Err(e) = ... println!`). -/
def console_step (selInput : Except ClientError (Fin 8)) (env : ConsoleEnv) :
    StepResult :=
  match selInput with
  | .error _ => .inputFailure
  | .ok sel =>
    if sel.val == 7 then .exited
    else if isVMAddressed sel then
      if (consoleVMs env).isEmpty then
        .cont false false true
      else
        match env.vmSelInput with
        | .error _ => .inputFailure
        | .ok _ =>
          match env.handlerResult with
          | .error _ => .cont true true false
          | .ok _ => .cont true false false
    else
      match env.handlerResult with
      | .error _ => .cont true true false
      | .ok _ => .cont true false false

/-- Rust `str::is_char_boundary` on the UTF-8 byte sequence: index 0, the
total length, or a byte that is not a continuation byte (below 0x80 or at
least 0xC0). -/
def isCharBoundary (bytes : List Nat) (i : Nat) : Bool :=
  i == 0 || i == bytes.length ||
    (match bytes.get? i with
     | some b => decide (b < 128 ∨ 192 ≤ b)
     | none => false)

/-- Rust string slicing `&s[..n]` at the byte level: defined (the first `n`
bytes) exactly when `n` is a char boundary of the byte sequence; `none`
models the runtime panic of an out-of-bounds or mid-character slice. -/
def strSliceTo (bytes : List Nat) (n : Nat) : Option (List Nat) :=
  if isCharBoundary bytes n then some (bytes.take n) else none

/-- UTF-8 encoding of one character (code point to byte sequence), as
naturals. -/
def utf8EncodeCharNat (c : Char) : List Nat :=
  let v := c.toNat
  if v < 128 then [v]
  else if v < 2048 then [192 + v / 64, 128 + v % 64]
  else if v < 65536 then
    [224 + v / 4096, 128 + (v / 64) % 64, 128 + v % 64]
  else
    [240 + v / 262144, 128 + (v / 4096) % 64, 128 + (v / 64) % 64,
     128 + v % 64]

/-- UTF-8 bytes of a string, as naturals — the byte sequence Rust's `str`
slicing indexes into. -/
def utf8Bytes (s : String) : List Nat :=
  (s.data.map utf8EncodeCharNat).flatten

/-- The short-id computation `vm.id[..8].to_string()` used by both the table
row conversion and the console selection menus. -/
def vmShortId (id : String) : Option (List Nat) :=
  strSliceTo (utf8Bytes id) 8

/-- The table row produced by `From<VM> for VMTableRow` (colorization
dropped; the formatted strings kept). -/
structure VMTableRow where
  id : List Nat
  name : String
  status : String
  cpu : String
  memory : String
  disk : String
  ip_address : String
  created : String
  deriving Repr

/-- The `From<VM> for VMTableRow` conversion; `none` models the slice panic
on a short id. -/
def vmTableRowFrom (vm : VM) : Option VMTableRow :=
  match vmShortId vm.id with
  | none => none
  | some sid =>
    some { id := sid, name := vm.name, status := vm.status,
           cpu := toString vm.cpu ++ "c",
           memory := toString vm.memory ++ "MB",
           disk := toString vm.disk_size ++ "GB",
           ip_address := vm.ip_address, created := vm.created_at }

/-- The console selection-menu label for one VM,
`format ... vm.name ... vm.id[..8]`; `none` models the slice panic. -/
def consoleMenuLabel (vm : VM) : Option (String × List Nat) :=
  (vmShortId vm.id).map (fun sid => (vm.name, sid))

/-- Sample running VM used to instantiate the theorems on concrete data. -/
def vmWeb : VM :=
  { id := "aaaaaaaa1111", name := "web", cpu := 2, memory := 512,
    disk_size := 10, image := "ubuntu-24.04", status := "running",
    ip_address := "172.16.0.2", created_at := "2024-01-01 00:00",
    socket_path := "/tmp/a.sock", kernel_path := "/boot/a",
    rootfs_path := "/var/a.ext4", tap_device := "tap0" }

/-- Sample stopped VM used to instantiate the theorems on concrete data. -/
def vmDb : VM :=
  { id := "bbbbbbbb2222", name := "db", cpu := 1, memory := 256,
    disk_size := 5, image := "debian-11", status := "stopped",
    ip_address := "172.16.0.3", created_at := "2024-01-02 00:00",
    socket_path := "/tmp/b.sock", kernel_path := "/boot/b",
    rootfs_path := "/var/b.ext4", tap_device := "tap1" }

/-- Sample VM whose service-assigned id is shorter than 8 bytes. -/
def vmTinyId : VM :=
  { id := "abc", name := "tiny", cpu := 1, memory := 128,
    disk_size := 1, image := "ubuntu-20.04", status := "created",
    ip_address := "172.16.0.4", created_at := "2024-01-03 00:00",
    socket_path := "/tmp/c.sock", kernel_path := "/boot/c",
    rootfs_path := "/var/c.ext4", tap_device := "tap2" }

/-- C1 counterexample: `list_vms` answers an envelope with success=true and
absent payload with an empty-list success, not an error. -/
theorem list_vms_absent_payload_cex :
    list_vms { success := true, message := "ok", data := none } =
      .ok [] := rfl

/-- C1 (amended): on a success=true envelope with absent payload, `create_vm`
and `get_vm` fail with the contract error, while `list_vms` substitutes the
default empty list and succeeds. -/
theorem envelope_absent_payload :
    ∀ msg : String,
      create_vm { success := true, message := msg, data := none } =
        .error (.noData "No VM data in response") ∧
      get_vm { success := true, message := msg, data := none } =
        .error (.noData "No VM data in response") ∧
      list_vms { success := true, message := msg, data := none } =
        .ok [] :=
  fun _ => ⟨rfl, rfl, rfl⟩

/-- C2: resolution is deterministic — a token matching an id resolves via the
direct lookup with zero list calls; a token matching no id resolves via
exactly one list call to the first VM in listed order with that exact name. -/
theorem find_vm_resolution_deterministic (vms : List VM) (token : String) :
    (∀ vm, vms.find? (fun v => v.id == token) = some vm →
      client_find vms token = (Except.ok vm, 0)) ∧
    ((∀ vm ∈ vms, vm.id ≠ token) →
      ∀ vm, vms.find? (fun v => v.name == token) = some vm →
        client_find vms token = (Except.ok vm, 1)) := by
  constructor
  · intro vm h
    simp [client_find, get_vm, service_get_vm, find_vm_by_name_or_id, h]
  · intro hid vm h
    have hnone : vms.find? (fun v => v.id == token) = none := by
      rw [List.find?_eq_none]
      intro x hx
      simpa using hid x hx
    simp [client_find, get_vm, service_get_vm, find_vm_by_name_or_id,
      list_vms, service_list_vms, hnone, h]

theorem find_vm_resolution_deterministic_wit :
    client_find [vmWeb, vmDb] "aaaaaaaa1111" = (Except.ok vmWeb, 0) ∧
    client_find [vmWeb, vmDb] "db" = (Except.ok vmDb, 1) := by
  constructor
  · exact (find_vm_resolution_deterministic [vmWeb, vmDb] "aaaaaaaa1111").1
      vmWeb (by decide)
  · exact (find_vm_resolution_deterministic [vmWeb, vmDb] "db").2
      (by decide) vmDb (by decide)

/-- C3: when the direct-id lookup fails with any error and no listed VM bears
the token as its name (the empty list included), the resolver fails with the
not-found error carrying the token, after its single list call. -/
theorem find_vm_not_found (token : String) (e : ClientError) (vms : List VM)
    (hname : ∀ vm ∈ vms, vm.name ≠ token) :
    find_vm_by_name_or_id token (.error e) (.ok vms) =
      (.error (.notFound token), 1) := by
  have hnone : vms.find? (fun v => v.name == token) = none := by
    rw [List.find?_eq_none]
    intro x hx
    simpa using hname x hx
  simp [find_vm_by_name_or_id, hnone]

theorem find_vm_not_found_wit :
    find_vm_by_name_or_id "ghost" (.error (.api "VM not found")) (.ok []) =
      (.error (.notFound "ghost"), 1) :=
  find_vm_not_found "ghost" (.api "VM not found") [] (by simp)
/-- C4: out-of-range cpu, memory or disk makes non-interactive
`handle_create` fail with a validation error and an empty network trace;
in-range values pass validation and the single request sent carries exactly
those values. -/
theorem handle_create_validation (name : Option String)
    (cpu memory disk : Nat) (image : Option String) (defaultName : String)
    (svc : VMRequest → ApiResponse VM) :
    ((¬(1 ≤ cpu ∧ cpu ≤ 8) ∨ ¬(128 ≤ memory ∧ memory ≤ 8192) ∨
        ¬(1 ≤ disk ∧ disk ≤ 100)) →
      ∃ msg, handle_create name cpu memory disk image defaultName svc =
        (.error (.validation msg), [])) ∧
    ((1 ≤ cpu ∧ cpu ≤ 8) → (128 ≤ memory ∧ memory ≤ 8192) →
      (1 ≤ disk ∧ disk ≤ 100) →
      (handle_create name cpu memory disk image defaultName svc).2 =
        [.createVM { name := name.getD defaultName, cpu := cpu,
                     memory := memory, disk_size := disk,
                     image := image.getD "ubuntu-24.04" }]) := by
  constructor
  · intro h
    by_cases h1 : 1 ≤ cpu ∧ cpu ≤ 8
    · by_cases h2 : 128 ≤ memory ∧ memory ≤ 8192
      · by_cases h3 : 1 ≤ disk ∧ disk ≤ 100
        · rcases h with h | h | h <;> exact absurd ‹_› h
        · refine ⟨"Disk size must be between 1GB and 100GB", ?_⟩
          simp [handle_create, handle_create_request, h1, h2, h3]
      · refine ⟨"Memory must be between 128MB and 8192MB", ?_⟩
        simp [handle_create, handle_create_request, h1, h2]
    · refine ⟨"CPU cores must be between 1 and 8", ?_⟩
      simp [handle_create, handle_create_request, h1]
  · intro h1 h2 h3
    have hreq : handle_create_request name cpu memory disk image defaultName =
        .ok { name := name.getD defaultName, cpu := cpu, memory := memory,
              disk_size := disk, image := image.getD "ubuntu-24.04" } := by
      simp [handle_create_request, h1, h2, h3]
    simp only [handle_create, hreq]
    split <;> rfl

theorem handle_create_validation_wit :
    (∃ msg, handle_create (some "demo") 0 512 10 none "vps-0"
        (fun _ => { success := true, message := "", data := none }) =
      (.error (.validation msg), [])) ∧
    (handle_create (some "demo") 2 1024 20 (some "ubuntu-22.04") "vps-0"
        (fun _ => { success := true, message := "", data := none })).2 =
      [.createVM { name := "demo", cpu := 2, memory := 1024, disk_size := 20,
                   image := "ubuntu-22.04" }] := by
  constructor
  · exact (handle_create_validation (some "demo") 0 512 10 none "vps-0"
      (fun _ => { success := true, message := "", data := none })).1
      (Or.inl (by decide))
  · exact (handle_create_validation (some "demo") 2 1024 20
      (some "ubuntu-22.04") "vps-0"
      (fun _ => { success := true, message := "", data := none })).2
      (by decide) (by decide) (by decide)

/-- C5: starting a VM whose resolved status is `running` and stopping one
whose resolved status is `stopped` are successful no-ops — no state-mutating
network call, a printed already-in-state notice. -/
theorem start_stop_idempotent (vm1 vm2 : VM)
    (startF stopF : String → Except ClientError Unit)
    (wait force confirm : Bool)
    (h1 : vm1.status = "running") (h2 : vm2.status = "stopped") :
    handle_start (.ok vm1) startF wait =
      { result := .ok (), calls := [], notice := true } ∧
    handle_stop (.ok vm2) stopF force confirm =
      { result := .ok (), calls := [], notice := true } := by
  constructor
  · simp [handle_start, h1]
  · simp [handle_stop, h2]

theorem start_stop_idempotent_wit :
    vmWeb.status = "running" ∧ vmDb.status = "stopped" ∧
    handle_start (.ok vmWeb) (fun _ => .ok ()) true =
      { result := .ok (), calls := [], notice := true } ∧
    handle_stop (.ok vmDb) (fun _ => .ok ()) false false =
      { result := .ok (), calls := [], notice := true } := by
  refine ⟨rfl, rfl, ?_, ?_⟩
  · exact (start_stop_idempotent vmWeb vmDb (fun _ => .ok ())
      (fun _ => .ok ()) true false false rfl rfl).1
  · exact (start_stop_idempotent vmWeb vmDb (fun _ => .ok ())
      (fun _ => .ok ()) true false false rfl rfl).2
/-- C6: on every received response, `health_check` returns a boolean — true
exactly for a 2xx status — and never an error; it errors only on transport
failure; and it is the only operation carrying its own (5-second) request
timeout. -/
theorem health_check_boolean_probe :
    (∀ status : Nat, health_check (.ok status) = .ok (isSuccessStatus status)) ∧
    (∀ status : Nat, health_check (.ok status) = .ok true ↔
      (200 ≤ status ∧ status < 300)) ∧
    (∀ e : String, health_check (.error e) =
      .error (.transport "Failed to connect to service")) ∧
    opTimeoutSecs .healthCheck = some 5 ∧
    (∀ op : NetCall, op ≠ .healthCheck →
      opTimeoutSecs op = none ∧ opTimeoutSecs op ≠ opTimeoutSecs .healthCheck) := by
  refine ⟨fun _ => rfl, fun status => ?_, fun _ => rfl, rfl, fun op hop => ?_⟩
  · simp [health_check, isSuccessStatus]
  · cases op <;> simp_all [opTimeoutSecs]

theorem health_check_boolean_probe_wit :
    health_check (.ok 200) = .ok true ∧
    health_check (.ok 503) = .ok false ∧
    health_check (.error "connection refused") =
      .error (.transport "Failed to connect to service") ∧
    opTimeoutSecs .listVMs = none := by
  refine ⟨?_, ?_, ?_, ?_⟩
  · exact (health_check_boolean_probe.2.1 200).mpr (by decide)
  · exact (health_check_boolean_probe.1 503).trans rfl
  · exact health_check_boolean_probe.2.2.1 "connection refused"
  · exact (health_check_boolean_probe.2.2.2.2 .listVMs (by simp)).1

/-- C7: for every command other than `health` the pre-flight probe runs, and
an unhealthy or failed probe makes `main` exit with status 1 without entering
the handler; the `health` command bypasses the gate entirely. -/
theorem preflight_gate_blocks (c : Command) (probe : Except ClientError Bool) :
    (c ≠ .health → (probe = .ok false ∨ (∃ e, probe = .error e)) →
      main_gate c probe = (true, .exited 1)) ∧
    (c ≠ .health → (main_gate c probe).1 = true) ∧
    main_gate .health probe = (false, .ranHandler .health) := by
  refine ⟨?_, ?_, rfl⟩
  · intro hc hp
    rcases hp with h | ⟨e, h⟩ <;> subst h <;>
      cases c <;> first | exact absurd rfl hc | rfl
  · intro hc
    cases c <;> first
      | exact absurd rfl hc
      | (cases probe with
         | error e => rfl
         | ok b => cases b <;> rfl)

theorem preflight_gate_blocks_wit :
    main_gate (.list false none) (.ok false) = (true, .exited 1) ∧
    main_gate (.get "web" false) (.error (.transport "no route")) =
      (true, .exited 1) ∧
    main_gate .health (.error (.transport "no route")) =
      (false, .ranHandler .health) := by
  refine ⟨?_, ?_, ?_⟩
  · exact (preflight_gate_blocks (.list false none) (.ok false)).1
      (by simp) (Or.inl rfl)
  · exact (preflight_gate_blocks (.get "web" false)
      (.error (.transport "no route"))).1 (by simp)
      (Or.inr ⟨.transport "no route", rfl⟩)
  · exact (preflight_gate_blocks (.get "web" false)
      (.error (.transport "no route"))).2.2

/-- C8 counterexample: with the force flag set, `handle_delete` deletes the
VM without ever printing the irreversibility warning, refuting "always
warns". -/
theorem handle_delete_force_skips_warning_cex :
    handle_delete (.ok vmWeb) (fun _ => .ok ()) true true =
      { result := .ok (), calls := [.deleteVM "aaaaaaaa1111"],
        warned := false } := rfl

/-- C8 (amended): `handle_delete` warns that the action is irreversible
exactly when the force flag is unset; without force it requires confirmation
and on decline aborts cleanly — success and no `deleteVM` call; `deleteVM`
is invoked exactly on confirmation or force, and only on the resolved id. -/
theorem handle_delete_confirmation (vm : VM)
    (deleteF : String → Except ClientError Unit) (force confirm : Bool) :
    ((handle_delete (.ok vm) deleteF force confirm).warned = !force) ∧
    (force = false → confirm = false →
      handle_delete (.ok vm) deleteF force confirm =
        { result := .ok (), calls := [], warned := true }) ∧
    ((handle_delete (.ok vm) deleteF force confirm).calls ≠ [] ↔
      (force = true ∨ confirm = true)) ∧
    (∀ call ∈ (handle_delete (.ok vm) deleteF force confirm).calls,
      call = .deleteVM vm.id) := by
  cases force <;> cases confirm <;>
    cases hd : deleteF vm.id <;>
      simp [handle_delete, hd]

theorem handle_delete_confirmation_wit :
    handle_delete (.ok vmDb) (fun _ => .ok ()) false false =
      { result := .ok (), calls := [], warned := true } :=
  (handle_delete_confirmation vmDb (fun _ => .ok ()) false false).2.1 rfl rfl
/-- C9: in one console-loop iteration, a dispatched handler error only yields
a continue-with-error-printed outcome; the loop exits only on menu index 7
(Exit) and terminates abnormally only when a menu or VM selection input
fails; and a VM-addressed action whose live list fetch yields the empty list
prints the notice and continues without entering the handler. -/
theorem console_step_loop (selInput : Except ClientError (Fin 8))
    (env : ConsoleEnv) :
    (∀ h ep nt, console_step selInput env = .cont h ep nt →
      (∃ e, env.handlerResult = .error e) → h = true → ep = true) ∧
    (console_step selInput env = .exited →
      ∃ sel : Fin 8, selInput = .ok sel ∧ sel.val = 7) ∧
    (console_step selInput env = .inputFailure →
      (∃ e, selInput = .error e) ∨ (∃ e, env.vmSelInput = .error e)) ∧
    (∀ sel : Fin 8, selInput = .ok sel → isVMAddressed sel = true →
      consoleVMs env = [] →
      console_step selInput env = .cont false false true) := by
  refine ⟨?_, ?_, ?_, ?_⟩
  · intro h ep nt heq her htrue
    rcases her with ⟨e, he⟩
    rcases selInput with e' | sel
    · simp [console_step] at heq
    · by_cases h7 : sel.val = 7
      · simp [console_step, h7] at heq
      · by_cases hvm : isVMAddressed sel
        · by_cases hemp : (consoleVMs env).isEmpty
          · simp [console_step, h7, hvm, hemp] at heq
            simp_all
          · rcases hv : env.vmSelInput with ev | k
            · simp [console_step, h7, hvm, hemp, hv] at heq
            · simp [console_step, h7, hvm, hemp, hv, he] at heq
              simp_all
        · simp [console_step, h7, hvm, he] at heq
          simp_all
  · intro heq
    rcases selInput with e' | sel
    · simp [console_step] at heq
    · by_cases h7 : sel.val = 7
      · exact ⟨sel, rfl, h7⟩
      · exfalso
        by_cases hvm : isVMAddressed sel
        · by_cases hemp : (consoleVMs env).isEmpty
          · simp [console_step, h7, hvm, hemp] at heq
          · rcases hv : env.vmSelInput with ev | k
            · simp [console_step, h7, hvm, hemp, hv] at heq
            · rcases hh : env.handlerResult with eh | u <;>
                simp [console_step, h7, hvm, hemp, hv, hh] at heq
        · rcases hh : env.handlerResult with eh | u <;>
            simp [console_step, h7, hvm, hh] at heq
  · intro heq
    rcases selInput with e' | sel
    · exact Or.inl ⟨e', rfl⟩
    · by_cases h7 : sel.val = 7
      · simp [console_step, h7] at heq
      · by_cases hvm : isVMAddressed sel
        · by_cases hemp : (consoleVMs env).isEmpty
          · simp [console_step, h7, hvm, hemp] at heq
          · rcases hv : env.vmSelInput with ev | k
            · exact Or.inr ⟨ev, rfl⟩
            · rcases hh : env.handlerResult with eh | u <;>
                simp [console_step, h7, hvm, hemp, hv, hh] at heq
        · rcases hh : env.handlerResult with eh | u <;>
            simp [console_step, h7, hvm, hh] at heq
  · intro sel hs hvma hemp
    subst hs
    have h7 : ¬(sel.val = 7) := by
      intro h
      simp [isVMAddressed, h] at hvma
    simp [console_step, h7, hvma, hemp]

theorem console_step_loop_wit :
    console_step (.ok (2 : Fin 8))
      { listResult := .ok [], vmSelInput := .ok 0,
        handlerResult := .ok () } = .cont false false true :=
  (console_step_loop (.ok (2 : Fin 8))
    { listResult := .ok [], vmSelInput := .ok 0,
      handlerResult := .ok () }).2.2.2 (2 : Fin 8) rfl rfl rfl

/-- Helper for the short-id analysis: index 8 can only be a char boundary of
a byte sequence holding at least 8 bytes. -/
theorem isCharBoundary_eight_le_length (bytes : List Nat)
    (h : isCharBoundary bytes 8 = true) : 8 ≤ bytes.length := by
  by_contra hlt
  have hg : bytes.get? 8 = none := by
    rw [List.get?_eq_none]
    omega
  unfold isCharBoundary at h
  rw [hg] at h
  simp at h
  omega

/-- C10: both renderings that slice the first 8 bytes of the VM id — the
table-row conversion and the console selection label — are defined exactly
when the id holds at least 8 bytes with a character boundary at byte 8, and
in particular they panic (model: `none`) on every id shorter than 8 bytes. -/
theorem short_id_needs_eight_bytes :
    (∀ vm : VM, (utf8Bytes vm.id).length < 8 →
      vmShortId vm.id = none ∧ vmTableRowFrom vm = none ∧
      consoleMenuLabel vm = none) ∧
    (∀ vm : VM, (vmTableRowFrom vm).isSome = true ↔
      (8 ≤ (utf8Bytes vm.id).length ∧
        isCharBoundary (utf8Bytes vm.id) 8 = true)) := by
  have hrow : ∀ vm : VM,
      (vmTableRowFrom vm).isSome = (vmShortId vm.id).isSome := by
    intro vm
    cases h : vmShortId vm.id <;> simp [vmTableRowFrom, h]
  have hsome : ∀ s : String,
      (vmShortId s).isSome = isCharBoundary (utf8Bytes s) 8 := by
    intro s
    cases hb : isCharBoundary (utf8Bytes s) 8 <;>
      simp [vmShortId, strSliceTo, hb]
  constructor
  · intro vm hl
    have hb : isCharBoundary (utf8Bytes vm.id) 8 = false := by
      cases hb : isCharBoundary (utf8Bytes vm.id) 8
      · rfl
      · exact absurd (isCharBoundary_eight_le_length _ hb) (by omega)
    have hn : vmShortId vm.id = none := by
      simp [vmShortId, strSliceTo, hb]
    exact ⟨hn, by simp [vmTableRowFrom, hn], by simp [consoleMenuLabel, hn]⟩
  · intro vm
    rw [hrow, hsome]
    constructor
    · intro hb
      exact ⟨isCharBoundary_eight_le_length _ hb, hb⟩
    · exact fun h => h.2

theorem short_id_needs_eight_bytes_wit :
    vmTableRowFrom vmTinyId = none ∧ (vmTableRowFrom vmWeb).isSome = true := by
  constructor
  · exact (short_id_needs_eight_bytes.1 vmTinyId (by decide)).2.1
  · exact (short_id_needs_eight_bytes.2 vmWeb).mpr ⟨by decide, by decide⟩

end LocciVPS
